import Mathlib

/-!
Shallow embedding of the DevFlow store and services (src/main.js).

The JavaScript document is a plain object; we embed it as a structure with
decidable equality. Stateful service methods mutate `state.data` in place and
call `state.notify()` (which runs the listeners and then `state.save()`);
we embed each method as a function from the document to a `StepResult`
carrying the new document together with whether the method fired the
notify/persist step. `state.init` calls `save` directly without notifying,
so the flags are kept separate.

JavaScript object spreads such as `{ id: ..., createdAt: ..., ...issueData }`
and `{ ...issue, ...updates }` are embedded with a patch record whose fields
are `Option`s: a `some` field is a key present on the right-hand object (and
overrides), a `none` field is an absent key. The key-accurate embedding of
the `addIssue` spread is `spreadIssue`: keys absent from `issueData` stay
absent (`undefined`) on the new object, and the program does not treat such
a slot as any default value (an undefined priority matches no priority
filter, an undefined status lands in no kanban column, and a non-empty
search throws on `undefined.toLowerCase()`; `objMatches`/`getFilteredObjs`
embed that throwing read, with `none` for a thrown `TypeError`). The
service-layer model (`Issue`, `applyPatch`, `baseIssue`) works with
fully-populated records, as every in-app call site supplies every content
field; its placeholder defaults stand in for absent keys only where no
theorem depends on the difference.

Persistence: `state.init`'s spread over the parsed blob is shallow — a
present top-level key is taken wholesale, even when its value is an
internally partial sub-object, and only an absent top-level key defaults
from `initialState`. The embedding makes the `filters` value of a stored
blob a possibly-partial object (`FiltersObj`) to capture this.

The `todos` mapping (a JS object keyed by date-strings) is embedded as an
association list in key-insertion order: assigning an existing key updates it
in place, assigning a new key appends it, exactly as JS object keys behave.
-/

namespace DevFlow

/-- Issue record as built by `issueService.addIssue` and the import adapter:
`id`, `title`, `description`, `priority`, `status`, `dueDate`, `createdAt`,
and an optional `sourceUrl` (present only on imported issues). -/
structure Issue where
  id : String
  title : String
  description : String
  priority : String
  status : String
  dueDate : String
  createdAt : String
  sourceUrl : Option String
deriving DecidableEq

/-- Todo record as built by `todoService.addTodo`. -/
structure Todo where
  id : String
  text : String
  completed : Bool
deriving DecidableEq

/-- The `filters` sub-object of the document. -/
structure Filters where
  priority : String
  search : String
deriving DecidableEq

/-- The application document (`state.data` in src/main.js). -/
structure Document where
  issues : List Issue
  todos : List (String × List Todo)
  theme : String
  currentDate : String
  filters : Filters
deriving DecidableEq

/-- The canonical initial document (`initialState` in src/main.js), with the
current date supplied by the environment (`new Date().toISOString()` split at
`T`). -/
def initialState (today : String) : Document :=
  { issues := []
    todos := []
    theme := "light"
    currentDate := today
    filters := { priority := "all", search := "" } }

/-- Result of one service method: the document it leaves behind, whether it
ran `state.notify()` (listener fan-out), and whether it ran `state.save()`
(persist). `notify` always calls `save`; `state.init` calls `save` alone. -/
structure StepResult where
  data : Document
  notified : Bool
  persisted : Bool
deriving DecidableEq

/-! ### String helpers (JS `toLowerCase` / `includes`) -/

/-- Embedding of JavaScript `String.prototype.toLowerCase`, character by
character. -/
def toLowerStr (s : String) : String :=
  String.mk (s.toList.map Char.toLower)

/-- Does `hay` start with `pat`? (helper for the substring check). -/
def startsWithCh : List Char → List Char → Bool
  | _, [] => true
  | [], _ :: _ => false
  | a :: as, b :: bs => a == b && startsWithCh as bs

/-- Does `hay` contain `pat` as a contiguous subsequence? Embedding of
JavaScript `String.prototype.includes` on the character lists. -/
def containsCh (pat : List Char) : List Char → Bool
  | [] => startsWithCh [] pat
  | a :: t => startsWithCh (a :: t) pat || containsCh pat t

/-- JavaScript `hay.includes(pat)` on strings. -/
def includesStr (hay pat : String) : Bool :=
  containsCh pat.toList hay.toList

/-! ### Issue service -/

/-- A JavaScript object spread over the Issue keys: `some` marks a key that
is present (and overrides on spread), `none` an absent key. Used both for
`addIssue`'s `issueData` and `updateIssue`'s `updates`. -/
structure IssuePatch where
  id : Option String := none
  title : Option String := none
  description : Option String := none
  priority : Option String := none
  status : Option String := none
  dueDate : Option String := none
  createdAt : Option String := none
  sourceUrl : Option String := none
deriving DecidableEq

/-- Embedding of `{ ...base, ...p }`: keys present on `p` override `base`. -/
def applyPatch (base : Issue) (p : IssuePatch) : Issue :=
  { id := p.id.getD base.id
    title := p.title.getD base.title
    description := p.description.getD base.description
    priority := p.priority.getD base.priority
    status := p.status.getD base.status
    dueDate := p.dueDate.getD base.dueDate
    createdAt := p.createdAt.getD base.createdAt
    sourceUrl := (p.sourceUrl.map some).getD base.sourceUrl }

/-- The object `{ id: api.generateUUID(), createdAt: today }` that
`addIssue` spreads `issueData` over, padded to a total `Issue` with
placeholder content values. The padding is a service-layer convenience for
call sites that supply every content field (as the issue form and the GitHub
adapter do); it is not what the program computes for an absent key —
`spreadIssue` is the key-accurate spread, and the theorems about absent
keys use it. Theorems built on `baseIssue` only ever read the `id` and
`createdAt` slots, where it is exact. -/
def baseIssue (freshId today : String) : Issue :=
  { id := freshId
    title := ""
    description := ""
    priority := "medium"
    status := "open"
    dueDate := ""
    createdAt := today
    sourceUrl := none }

/-- `issueService.addIssue(issueData)`: builds
`{ id: api.generateUUID(), createdAt: today, ...issueData }`, pushes it onto
`issues`, and notifies. The fresh id (from `api.generateUUID()`) and today's
date-string are passed in as parameters. -/
def addIssue (freshId today : String) (issueData : IssuePatch) (doc : Document) :
    StepResult :=
  { data := { doc with issues := doc.issues ++ [applyPatch (baseIssue freshId today) issueData] }
    notified := true
    persisted := true }

/-- Replace the first issue whose `id` matches with its patched version
(`issues[index] = { ...issues[index], ...updates }` after `findIndex`);
`none` when no issue matches (`findIndex` returned `-1`). -/
def updateFirst (id : String) (p : IssuePatch) : List Issue → Option (List Issue)
  | [] => none
  | i :: rest =>
    if i.id = id then some (applyPatch i p :: rest)
    else (updateFirst id p rest).map (i :: ·)

/-- `issueService.updateIssue(id, updates)`: merges `updates` into the first
matching issue and notifies; silent no-op when `findIndex` misses. -/
def updateIssue (id : String) (updates : IssuePatch) (doc : Document) : StepResult :=
  match updateFirst id updates doc.issues with
  | none => { data := doc, notified := false, persisted := false }
  | some issues' => { data := { doc with issues := issues' }, notified := true, persisted := true }

/-- `issueService.deleteIssue(id)`: filters the matching issue out and
notifies unconditionally (the notify is not guarded by a hit). -/
def deleteIssue (id : String) (doc : Document) : StepResult :=
  { data := { doc with issues := doc.issues.filter (fun i => i.id != id) }
    notified := true
    persisted := true }

/-- `issueService.importIssues(newIssues)`: `issues = [...issues, ...newIssues]`,
then notify. -/
def importIssues (newIssues : List Issue) (doc : Document) : StepResult :=
  { data := { doc with issues := doc.issues ++ newIssues }
    notified := true
    persisted := true }

/-- `issueService.getFilteredIssues()`: pure read; keeps the issues matching
the priority filter and the case-insensitive search over title/description. -/
def getFilteredIssues (doc : Document) : List Issue :=
  doc.issues.filter fun issue =>
    (decide (doc.filters.priority = "all") || decide (issue.priority = doc.filters.priority)) &&
    (decide (doc.filters.search = "") ||
      includesStr (toLowerStr issue.title) (toLowerStr doc.filters.search) ||
      includesStr (toLowerStr issue.description) (toLowerStr doc.filters.search))

/-! ### Key-accurate issue objects

`IssuePatch` doubles as a JavaScript object over the Issue keys: `some` is a
present key, `none` an absent key (`undefined` on read). These definitions
embed `addIssue` and `getFilteredIssues` at the key level, without padding
absent keys. -/

/-- Key-accurate embedding of `{ id: freshId, createdAt: today, ...p }`: the
base object carries exactly the keys `id` and `createdAt`; keys present on
`p` override, keys absent from `p` stay absent on the result. -/
def spreadIssue (freshId today : String) (p : IssuePatch) : IssuePatch :=
  { id := some (p.id.getD freshId)
    title := p.title
    description := p.description
    priority := p.priority
    status := p.status
    dueDate := p.dueDate
    createdAt := some (p.createdAt.getD today)
    sourceUrl := p.sourceUrl }

/-- `issueService.addIssue(issueData)` at the key level: push the spread
result onto the issues list. -/
def addIssueObj (freshId today : String) (issueData : IssuePatch)
    (objs : List IssuePatch) : List IssuePatch :=
  objs ++ [spreadIssue freshId today issueData]

/-- The `getFilteredIssues` predicate on a key-level issue object. JavaScript
computes `matchesPriority` (never throws: `undefined === s` is false) and
then `matchesSearch`, which calls `.toLowerCase()` on the `title` — and, when
the title does not match, on the `description`; on an absent key that read
throws a `TypeError`, embedded as `none`. -/
def objMatches (filters : Filters) (o : IssuePatch) : Option Bool :=
  let matchesPriority : Bool :=
    decide (filters.priority = "all") || o.priority == some filters.priority
  let matchesSearch : Option Bool :=
    if filters.search = "" then some true
    else
      match o.title with
      | none => none
      | some t =>
        if includesStr (toLowerStr t) (toLowerStr filters.search) then some true
        else
          match o.description with
          | none => none
          | some d => some (includesStr (toLowerStr d) (toLowerStr filters.search))
  matchesSearch.map fun ms => matchesPriority && ms

/-- `getFilteredIssues` over key-level issue objects: `none` when the filter
predicate throws on some object, otherwise the kept subsequence. -/
def getFilteredObjs (filters : Filters) : List IssuePatch → Option (List IssuePatch)
  | [] => some []
  | o :: rest =>
    match objMatches filters o with
    | none => none
    | some b => (getFilteredObjs filters rest).map fun r => if b then o :: r else r

/-! ### Todo service

The `todos` object is an association list in key-insertion order. -/

/-- Read `todos[date]`: the first entry with the matching key, as JS property
lookup on an object without duplicate keys. -/
def lookupBucket : List (String × List Todo) → String → Option (List Todo)
  | [], _ => none
  | (d, l) :: rest, date => if d = date then some l else lookupBucket rest date

/-- Write `todos[date] = l`: update the matching key in place, or append the
key at the end when absent (JS key-insertion order). -/
def setBucket : List (String × List Todo) → String → List Todo → List (String × List Todo)
  | [], date, l => [(date, l)]
  | (d, b) :: rest, date, l =>
    if d = date then (d, l) :: rest else (d, b) :: setBucket rest date l

/-- `todoService.addTodo(text, date)`: creates `todos[date]` as `[]` when the
key is absent, pushes `{ id: api.generateUUID(), text, completed: false }`,
and notifies. The fresh id is passed in as a parameter. -/
def addTodo (freshId text date : String) (doc : Document) : StepResult :=
  let bucket := (lookupBucket doc.todos date).getD []
  { data := { doc with todos := setBucket doc.todos date (bucket ++ [⟨freshId, text, false⟩]) }
    notified := true
    persisted := true }

/-- Flip `completed` on the first todo whose `id` matches (`Array.prototype.find`
picks the first match); `none` when no todo matches. -/
def toggleFirst (id : String) : List Todo → Option (List Todo)
  | [] => none
  | t :: rest =>
    if t.id = id then some ({ t with completed := !t.completed } :: rest)
    else (toggleFirst id rest).map (t :: ·)

/-- `todoService.toggleTodo(id, date)`: `todos[date]?.find(t => t.id === id)`;
when found, flips `completed` in place and notifies; silent no-op when the
bucket or the id is absent. -/
def toggleTodo (id date : String) (doc : Document) : StepResult :=
  match lookupBucket doc.todos date with
  | none => { data := doc, notified := false, persisted := false }
  | some bucket =>
    match toggleFirst id bucket with
    | none => { data := doc, notified := false, persisted := false }
    | some bucket' =>
      { data := { doc with todos := setBucket doc.todos date bucket' }
        notified := true
        persisted := true }

/-- `todoService.deleteTodo(id, date)`: early return when the bucket is
absent; otherwise filters the id out of the bucket and notifies
unconditionally (also when the id was not present in the bucket). -/
def deleteTodo (id date : String) (doc : Document) : StepResult :=
  match lookupBucket doc.todos date with
  | none => { data := doc, notified := false, persisted := false }
  | some bucket =>
    { data := { doc with todos := setBucket doc.todos date (bucket.filter (fun t => t.id != id)) }
      notified := true
      persisted := true }

/-- `todoService.getTodosForDate(date)`: pure read, `todos[date] || []`.
A JS property read does not create the key, and the embedding is a pure
function of the document, so the document is untouched by construction. -/
def getTodosForDate (doc : Document) (date : String) : List Todo :=
  (lookupBucket doc.todos date).getD []

/-! ### Store initialization

The spread `{ ...initialState, ...JSON.parse(stored) }` is shallow: it
merges top-level keys only. A present top-level key is taken wholesale from
the blob, even when its value is an internally partial object — so a stored
`{"filters":{"priority":"high"}}` replaces `filters` with an object that has
no `search` key, and the merged document is persisted in that state. The
embedding therefore gives a stored blob's `filters` value the possibly-
partial shape `FiltersObj`, and the merged document the shape `DocumentObj`
whose `filters` sub-object may lack keys. Values of other shapes than the
document's five keys (ill-typed field values, extra unknown keys) are
likewise carried wholesale by the JS spread; the embedding is restricted to
the five schema keys, with the partial `filters` sub-object standing for the
carried-in-wholesale behavior. -/

/-- The `filters` sub-object as stored: each of its keys may be absent. -/
structure FiltersObj where
  priority : Option String := none
  search : Option String := none
deriving DecidableEq

/-- Stored document fields as recovered by `JSON.parse`: each top-level key
of the serialized blob may be present or absent, and a present `filters`
value is an object whose own keys may be absent. -/
structure StoredFields where
  issues : Option (List Issue) := none
  todos : Option (List (String × List Todo)) := none
  theme : Option String := none
  currentDate : Option String := none
  filters : Option FiltersObj := none
deriving DecidableEq

/-- What `localStorage.getItem` + `JSON.parse` yields: no stored value, a
stored value that fails to parse, or a parsed object. -/
inductive StoredBlob where
  | absent
  | corrupt
  | parsed (p : StoredFields)
deriving DecidableEq

/-- The document as `state.init` leaves it: like `Document`, but the
`filters` sub-object may lack keys when a stored blob carried a partial
one. -/
structure DocumentObj where
  issues : List Issue
  todos : List (String × List Todo)
  theme : String
  currentDate : String
  filters : FiltersObj
deriving DecidableEq

/-- The canonical initial document in key-level shape: both filter keys
present. -/
def initialStateObj (today : String) : DocumentObj :=
  { issues := []
    todos := []
    theme := "light"
    currentDate := today
    filters := { priority := some "all", search := some "" } }

/-- Result of `state.init`: the document it leaves behind and whether it ran
`this.save()`; `init` never notifies. -/
structure InitResult where
  data : DocumentObj
  persisted : Bool
deriving DecidableEq

/-- `state.init()`: when a blob is stored, either shallow-spread the parsed
object over `initialState` (present top-level keys taken wholesale, absent
ones from `initialState`) or, on a parse failure, reset to
`{ ...initialState }`; when nothing is stored, keep the startup value of
`state.data` (`pre`, which at startup is `{ ...initialState }`); always
finish with `this.save()` (persist without notifying). -/
def stateInit (today : String) (pre : DocumentObj) (blob : StoredBlob) : InitResult :=
  match blob with
  | .absent => { data := pre, persisted := true }
  | .corrupt => { data := initialStateObj today, persisted := true }
  | .parsed p =>
    { data :=
        { issues := p.issues.getD (initialStateObj today).issues
          todos := p.todos.getD (initialStateObj today).todos
          theme := p.theme.getD (initialStateObj today).theme
          currentDate := p.currentDate.getD (initialStateObj today).currentDate
          filters := p.filters.getD (initialStateObj today).filters }
      persisted := true }

/-- Modelled from the spec as amended, for comparison with `stateInit`: on
absence or deserialization failure the canonical initial document; on
success a shallow merge that takes each present top-level field wholesale
from the blob — even an internally partial `filters` object — and defaults
only absent top-level fields from the canonical initial document. -/
def specInitShallowMerge (today : String) (blob : StoredBlob) : DocumentObj :=
  match blob with
  | .absent => initialStateObj today
  | .corrupt => initialStateObj today
  | .parsed p =>
    { issues := p.issues.getD []
      todos := p.todos.getD []
      theme := p.theme.getD "light"
      currentDate := p.currentDate.getD today
      filters := p.filters.getD { priority := some "all", search := some "" } }

/-! ### Id generation and operation sequences -/

/-- Hex digit for `v.toString(16)` with `v` in `0..15`. -/
def hexDigit (n : Nat) : Char :=
  "0123456789abcdef".toList.getD n '0'

/-- The template string of `api.generateUUID`. -/
def uuidTemplate : List Char :=
  "xxxxxxxx-xxxx-4xxx-yxxx-xxxxxxxxxxxx".toList

/-- `api.generateUUID()`: replaces each `x`/`y` of the template using a fresh
draw `r = Math.random() * 16 | 0` (here `rand k % 16` for the k-th draw);
an `x` becomes `r.toString(16)`, a `y` becomes `(r & 0x3 | 0x8).toString(16)`.
The generator has no memory: equal draw streams give equal outputs, so
nothing in the code rules out a repeated id. -/
def generateUUID (rand : Nat → Nat) : String :=
  String.mk (uuidTemplate.foldl
    (fun (acc : List Char × Nat) c =>
      if c = 'x' then (acc.1 ++ [hexDigit (rand acc.2 % 16)], acc.2 + 1)
      else if c = 'y' then (acc.1 ++ [hexDigit ((rand acc.2 % 16) &&& 3 ||| 8)], acc.2 + 1)
      else (acc.1 ++ [c], acc.2))
    ([], 0)).1

/-- One issue-creating call: `addIssue(issueData)` or `importIssues(batch)`. -/
inductive Op where
  | add (issueData : IssuePatch)
  | importBatch (batch : List Issue)
deriving DecidableEq

/-- Run one call, threading a fresh-id oracle: the k-th `addIssue` call uses
id `gen k`. -/
def stepOp (gen : Nat → String) (today : String) :
    Document × Nat → Op → Document × Nat
  | (doc, n), .add p => ((addIssue (gen n) today p doc).data, n + 1)
  | (doc, n), .importBatch b => ((importIssues b doc).data, n)

/-- Run a sequence of issue-creating calls from a starting document. -/
def runOps (gen : Nat → String) (today : String) (ops : List Op)
    (s : Document × Nat) : Document × Nat :=
  ops.foldl (stepOp gen today) s

/-- The ids the calls in `ops` introduce, starting from oracle position `n`:
one fresh id per `addIssue` whose `issueData` does not override `id`, the
batch ids for `importIssues`. -/
def opIdsFrom (gen : Nat → String) (n : Nat) : List Op → List String
  | [] => []
  | .add p :: rest => p.id.getD (gen n) :: opIdsFrom gen (n + 1) rest
  | .importBatch b :: rest => b.map Issue.id ++ opIdsFrom gen n rest

/-- Modelled from the spec (§4.3 `getTodosForDate`), for comparison with
`getTodosForDate`: return the bucket's sequence when the date has a bucket,
the empty sequence otherwise. -/
def specGetTodos (doc : Document) (date : String) : List Todo :=
  match lookupBucket doc.todos date with
  | some l => l
  | none => []

/-! ### Sample values for concrete instances -/

/-- A concrete issue, as Scenario 1 of the spec creates it. -/
def issueBugA : Issue :=
  { id := "id-1"
    title := "Bug A"
    description := ""
    priority := "high"
    status := "open"
    dueDate := ""
    createdAt := "2024-05-05"
    sourceUrl := none }

/-- A concrete todo. -/
def todoW : Todo :=
  { id := "t-1", text := "Write tests", completed := false }

/-- A concrete fields object, as Scenario 1 of the spec supplies it. -/
def patchBugA : IssuePatch :=
  { title := some "Bug A", priority := some "high", status := some "open" }

/-- A concrete document holding one issue and one todo bucket. -/
def sampleDoc : Document :=
  { initialState "2024-05-05" with
      issues := [issueBugA]
      todos := [("2024-03-01", [todoW])] }

/-! ## Helper lemmas -/

theorem lookupBucket_setBucket_self (ts : List (String × List Todo)) (d : String)
    (l : List Todo) : lookupBucket (setBucket ts d l) d = some l := by
  induction ts with
  | nil => simp [setBucket, lookupBucket]
  | cons hd rest ih =>
    obtain ⟨d', b⟩ := hd
    by_cases h : d' = d
    · simp [setBucket, lookupBucket, h]
    · simp [setBucket, lookupBucket, h, ih]

theorem lookupBucket_setBucket_ne (ts : List (String × List Todo)) (d d' : String)
    (l : List Todo) (h : d' ≠ d) :
    lookupBucket (setBucket ts d l) d' = lookupBucket ts d' := by
  have h2 : ¬ d = d' := fun he => h he.symm
  induction ts with
  | nil => simp [setBucket, lookupBucket, h2]
  | cons hd rest ih =>
    obtain ⟨dk, b⟩ := hd
    by_cases hk : dk = d
    · subst hk
      simp [setBucket, lookupBucket, h2]
    · simp [setBucket, lookupBucket, hk, ih]

theorem setBucket_setBucket (ts : List (String × List Todo)) (d : String)
    (l1 l2 : List Todo) : setBucket (setBucket ts d l1) d l2 = setBucket ts d l2 := by
  induction ts with
  | nil => simp [setBucket]
  | cons hd rest ih =>
    obtain ⟨dk, b⟩ := hd
    by_cases hk : dk = d
    · simp [setBucket, hk]
    · simp [setBucket, hk, ih]

theorem setBucket_lookupBucket_eq (ts : List (String × List Todo)) (d : String)
    (l : List Todo) (h : lookupBucket ts d = some l) : setBucket ts d l = ts := by
  induction ts with
  | nil => simp [lookupBucket] at h
  | cons hd rest ih =>
    obtain ⟨dk, b⟩ := hd
    by_cases hk : dk = d
    · simp [lookupBucket, hk] at h
      simp [setBucket, hk, h]
    · simp [lookupBucket, hk] at h
      simp [setBucket, hk, ih h]

theorem toggleFirst_toggleFirst (id : String) (l l' : List Todo)
    (h : toggleFirst id l = some l') : toggleFirst id l' = some l := by
  induction l generalizing l' with
  | nil => simp [toggleFirst] at h
  | cons t rest ih =>
    by_cases ht : t.id = id
    · simp only [toggleFirst, if_pos ht] at h
      cases h
      show toggleFirst id ({ t with completed := !t.completed } :: rest) = some (t :: rest)
      have ht2 : ({ t with completed := !t.completed } : Todo).id = id := ht
      simp only [toggleFirst, if_pos ht2, Bool.not_not]
    · simp only [toggleFirst, if_neg ht] at h
      cases hr : toggleFirst id rest with
      | none => rw [hr] at h; simp at h
      | some r' =>
        rw [hr] at h
        simp only [Option.map_some', Option.some.injEq] at h
        subst h
        show toggleFirst id (t :: r') = some (t :: rest)
        simp only [toggleFirst, if_neg ht, ih r' hr, Option.map_some']

theorem toggleFirst_of_mem (id : String) (l : List Todo)
    (h : ∃ t ∈ l, t.id = id) : ∃ l', toggleFirst id l = some l' := by
  induction l with
  | nil => simp at h
  | cons t rest ih =>
    by_cases ht : t.id = id
    · exact ⟨{ t with completed := !t.completed } :: rest, by
        simp only [toggleFirst, if_pos ht]⟩
    · obtain ⟨u, hu, hid⟩ := h
      rcases List.mem_cons.mp hu with huh | hur
      · exact absurd (huh ▸ hid) ht
      · obtain ⟨l', hl'⟩ := ih ⟨u, hur, hid⟩
        exact ⟨t :: l', by simp only [toggleFirst, if_neg ht, hl', Option.map_some']⟩

theorem toggleFirst_eq_none (id : String) (l : List Todo)
    (h : ∀ t ∈ l, t.id ≠ id) : toggleFirst id l = none := by
  induction l with
  | nil => rfl
  | cons t rest ih =>
    have h1 : t.id ≠ id := h t (by simp)
    have h2 : toggleFirst id rest = none := ih fun u hu => h u (by simp [hu])
    simp [toggleFirst, h1, h2]

theorem updateFirst_eq_none (id : String) (p : IssuePatch) (l : List Issue)
    (h : ∀ i ∈ l, i.id ≠ id) : updateFirst id p l = none := by
  induction l with
  | nil => rfl
  | cons i rest ih =>
    have h1 : i.id ≠ id := h i (by simp)
    have h2 : updateFirst id p rest = none := ih fun j hj => h j (by simp [hj])
    simp [updateFirst, h1, h2]

theorem updateFirst_map_createdAt (id : String) (p : IssuePatch)
    (hp : p.createdAt = none) (l l' : List Issue)
    (h : updateFirst id p l = some l') :
    l'.map Issue.createdAt = l.map Issue.createdAt := by
  induction l generalizing l' with
  | nil => simp [updateFirst] at h
  | cons i rest ih =>
    by_cases hi : i.id = id
    · simp [updateFirst, hi] at h
      subst h
      simp [applyPatch, hp]
    · simp [updateFirst, hi] at h
      obtain ⟨r', hr', hl'⟩ := h
      subst hl'
      simp [ih r' hr']

theorem getFilteredIssues_default (doc : Document)
    (h1 : doc.filters.priority = "all") (h2 : doc.filters.search = "") :
    getFilteredIssues doc = doc.issues := by
  unfold getFilteredIssues
  rw [List.filter_eq_self]
  intro a _
  simp [h1, h2]

theorem runOps_ids (gen : Nat → String) (today : String) (ops : List Op)
    (doc : Document) (n : Nat) :
    (runOps gen today ops (doc, n)).1.issues.map Issue.id
      = doc.issues.map Issue.id ++ opIdsFrom gen n ops := by
  induction ops generalizing doc n with
  | nil => simp [runOps, opIdsFrom]
  | cons op rest ih =>
    cases op with
    | add p =>
      have hstep : runOps gen today (Op.add p :: rest) (doc, n)
          = runOps gen today rest ((addIssue (gen n) today p doc).data, n + 1) := rfl
      rw [hstep, ih]
      simp [addIssue, opIdsFrom, applyPatch, baseIssue]
    | importBatch b =>
      have hstep : runOps gen today (Op.importBatch b :: rest) (doc, n)
          = runOps gen today rest ((importIssues b doc).data, n) := rfl
      rw [hstep, ih]
      simp [importIssues, opIdsFrom]

/-! ## Claim theorems -/

/-- C1: for every document state, an issue of the document is in the result
of `getFilteredIssues` if and only if the priority filter is "all" or equals
the issue's priority, and the search filter is empty or the issue's title or
description contains the search text case-insensitively. -/
theorem claim1_filter_correct (doc : Document) (I : Issue) (hI : I ∈ doc.issues) :
    I ∈ getFilteredIssues doc ↔
      ((doc.filters.priority = "all" ∨ I.priority = doc.filters.priority) ∧
        (doc.filters.search = "" ∨
          includesStr (toLowerStr I.title) (toLowerStr doc.filters.search) = true ∨
          includesStr (toLowerStr I.description) (toLowerStr doc.filters.search) = true)) := by
  unfold getFilteredIssues
  rw [List.mem_filter]
  simp [hI, or_assoc]

/-- C1 witness: the sample issue matches the default filters and is kept. -/
theorem claim1_filter_correct_witness :
    issueBugA ∈ sampleDoc.issues ∧
    (issueBugA ∈ getFilteredIssues sampleDoc ↔
      ((sampleDoc.filters.priority = "all" ∨ issueBugA.priority = sampleDoc.filters.priority) ∧
        (sampleDoc.filters.search = "" ∨
          includesStr (toLowerStr issueBugA.title) (toLowerStr sampleDoc.filters.search) = true ∨
          includesStr (toLowerStr issueBugA.description) (toLowerStr sampleDoc.filters.search) = true))) :=
  ⟨by decide, claim1_filter_correct sampleDoc issueBugA (by decide)⟩

/-- C2 counterexample, at the key-accurate spread: a fields object that
itself carries `id` and `createdAt` keys overrides the freshly assigned
values (the spread `{ id, createdAt, ...issueData }` puts `issueData` last);
and a field the fields object does not supply is left absent, not set to its
Issue-shape default — Scenario 1's fields object yields an issue with no
`description` key, on which `getFilteredIssues` under a non-empty
non-matching search throws (`undefined.toLowerCase()`) instead of matching
the empty-string default. -/
theorem claim2_counterexample :
    ((spreadIssue "fresh-1" "2024-05-05"
        { id := some "dup", createdAt := some "1999-12-31" }).id ≠ some "fresh-1") ∧
    ((spreadIssue "fresh-1" "2024-05-05"
        { id := some "dup", createdAt := some "1999-12-31" }).createdAt
      ≠ some "2024-05-05") ∧
    (spreadIssue "id-1" "2024-05-05" patchBugA).description = none ∧
    getFilteredObjs { priority := "all", search := "crash" }
        (addIssueObj "id-1" "2024-05-05" patchBugA []) = none := by
  decide

/-- C2 (amended): provided the fields object does not itself carry `id` or
`createdAt` keys — true of every `addIssue` call in the program — the new
issue object gets the fresh id and today's date-string as `createdAt` and is
appended at the end of the issues sequence; every other key of the new
object is exactly the fields object's (an unsupplied field is left absent,
not defaulted). In particular, starting from the canonical empty document,
after one `addIssue` call `getFilteredIssues` under the default filters —
which never read the absent keys — returns exactly the one new issue
object. -/
theorem claim2_addIssue_fresh (fid today : String) (p : IssuePatch)
    (objs : List IssuePatch) (hid : p.id = none) (hca : p.createdAt = none) :
    (addIssueObj fid today p objs = objs ++ [spreadIssue fid today p] ∧
      (spreadIssue fid today p).id = some fid ∧
      (spreadIssue fid today p).createdAt = some today ∧
      (spreadIssue fid today p).title = p.title ∧
      (spreadIssue fid today p).description = p.description ∧
      (spreadIssue fid today p).priority = p.priority ∧
      (spreadIssue fid today p).status = p.status ∧
      (spreadIssue fid today p).dueDate = p.dueDate ∧
      (spreadIssue fid today p).sourceUrl = p.sourceUrl) ∧
    getFilteredObjs { priority := "all", search := "" }
        (addIssueObj fid today p [])
      = some [spreadIssue fid today p] := by
  refine ⟨⟨rfl, ?_, ?_, rfl, rfl, rfl, rfl, rfl, rfl⟩, ?_⟩
  · simp [spreadIssue, hid]
  · simp [spreadIssue, hca]
  · rfl

/-- C2 witness: Scenario 1 concretely, with fresh id "id-1" and today
"2024-05-05". -/
theorem claim2_addIssue_fresh_witness :
    patchBugA.id = none ∧ patchBugA.createdAt = none ∧
    getFilteredObjs { priority := "all", search := "" }
        (addIssueObj "id-1" "2024-05-05" patchBugA [])
      = some [spreadIssue "id-1" "2024-05-05" patchBugA] :=
  ⟨rfl, rfl, (claim2_addIssue_fresh "id-1" "2024-05-05" patchBugA [] rfl rfl).2⟩

/-- C3 counterexample: `deleteIssue` called with an id that exists nowhere in
the document leaves the document unchanged but does fire notify/persist,
contradicting "fires no notification and no persist". -/
theorem claim3_counterexample :
    (∀ i ∈ sampleDoc.issues, i.id ≠ "missing-id") ∧
    (deleteIssue "missing-id" sampleDoc).data = sampleDoc ∧
    (deleteIssue "missing-id" sampleDoc).notified = true := by
  decide

/-- C3 (amended): every lookup miss leaves the document unchanged;
`updateIssue` and `toggleTodo` misses, and `deleteTodo` on an absent bucket,
are fully silent (no notify, no persist); but `deleteIssue` fires
notify/persist even on a miss, and `deleteTodo` fires notify/persist
whenever the bucket exists, even when the id is not in it. -/
theorem claim3_lookup_miss (doc : Document) (id date : String) (p : IssuePatch)
    (hIss : ∀ i ∈ doc.issues, i.id ≠ id)
    (hTodo : ∀ t ∈ (lookupBucket doc.todos date).getD [], t.id ≠ id) :
    updateIssue id p doc = ⟨doc, false, false⟩ ∧
    toggleTodo id date doc = ⟨doc, false, false⟩ ∧
    (deleteIssue id doc).data = doc ∧
    (deleteIssue id doc).notified = true ∧
    (deleteTodo id date doc).data = doc ∧
    (deleteTodo id date doc).notified = (lookupBucket doc.todos date).isSome := by
  refine ⟨?_, ?_, ?_, rfl, ?_, ?_⟩
  · unfold updateIssue
    rw [updateFirst_eq_none id p doc.issues hIss]
  · unfold toggleTodo
    cases hb : lookupBucket doc.todos date with
    | none => rfl
    | some b =>
      have hbt : ∀ t ∈ b, t.id ≠ id := by
        intro t htb
        exact hTodo t (by rw [hb]; exact htb)
      simp only [toggleFirst_eq_none id b hbt]
  · show { doc with issues := doc.issues.filter (fun i => i.id != id) } = doc
    have hf : doc.issues.filter (fun i => i.id != id) = doc.issues := by
      rw [List.filter_eq_self]
      intro a ha
      simp [hIss a ha]
    rw [hf]
  · unfold deleteTodo
    cases hb : lookupBucket doc.todos date with
    | none => rfl
    | some b =>
      have hbt : ∀ t ∈ b, t.id ≠ id := by
        intro t htb
        exact hTodo t (by rw [hb]; exact htb)
      have hf : b.filter (fun t => t.id != id) = b := by
        rw [List.filter_eq_self]
        intro a ha
        simp [hbt a ha]
      have hset : setBucket doc.todos date (b.filter (fun t => t.id != id)) = doc.todos := by
        rw [hf]
        exact setBucket_lookupBucket_eq doc.todos date b hb
      simp only [hset]
  · unfold deleteTodo
    cases hb : lookupBucket doc.todos date with
    | none => rfl
    | some b => rfl

/-- C3 witness: the amended no-op behavior at a concrete document. -/
theorem claim3_lookup_miss_witness :
    (∀ i ∈ sampleDoc.issues, i.id ≠ "missing-id") ∧
    (∀ t ∈ (lookupBucket sampleDoc.todos "2024-03-01").getD [], t.id ≠ "missing-id") ∧
    updateIssue "missing-id" {} sampleDoc = ⟨sampleDoc, false, false⟩ :=
  ⟨by decide, by decide,
    (claim3_lookup_miss sampleDoc "missing-id" "2024-03-01" {}
      (by decide) (by decide)).1⟩

/-- C4 counterexample: `updateIssue` with a `partialFields` object that
carries a `createdAt` key rewrites the matching issue's `createdAt` (the
merge `{ ...issue, ...updates }` lets `updates` override every field). -/
theorem claim4_counterexample :
    (∃ i ∈ sampleDoc.issues, i.id = "id-1") ∧
    (updateIssue "id-1" { createdAt := some "1999-12-31" } sampleDoc).data.issues.map Issue.createdAt
      ≠ sampleDoc.issues.map Issue.createdAt := by
  decide

/-- C4 (amended): provided `partialFields` does not itself carry a
`createdAt` key — true of every `updateIssue` call in the program —
`updateIssue` preserves every issue's `createdAt`; and `addIssue` sets the
new issue's `createdAt` to today's date-string at creation. -/
theorem claim4_createdAt_preserved (doc : Document) (id fid today : String)
    (p : IssuePatch) (hp : p.createdAt = none) :
    (updateIssue id p doc).data.issues.map Issue.createdAt
      = doc.issues.map Issue.createdAt ∧
    (addIssue fid today p doc).data.issues.map Issue.createdAt
      = doc.issues.map Issue.createdAt ++ [today] := by
  constructor
  · unfold updateIssue
    cases h : updateFirst id p doc.issues with
    | none => rfl
    | some l' => exact updateFirst_map_createdAt id p hp doc.issues l' h
  · simp [addIssue, applyPatch, baseIssue, hp]

/-- C4 witness: a status-only update leaves the sample issue's `createdAt`
in place. -/
theorem claim4_createdAt_preserved_witness :
    ({ status := some "resolved" } : IssuePatch).createdAt = none ∧
    (updateIssue "id-1" { status := some "resolved" } sampleDoc).data.issues.map Issue.createdAt
      = sampleDoc.issues.map Issue.createdAt :=
  ⟨rfl,
    (claim4_createdAt_preserved sampleDoc "id-1" "x" "2024-05-05"
      { status := some "resolved" } rfl).1⟩

/-- C5 counterexample: the stored blob `{"filters":{"priority":"high"}}`
parses successfully, but the shallow spread takes the partial `filters`
object wholesale: the merged document's `filters` has no `search` key (the
nested missing field does not take its canonical default `""`), and this
partial-corrupt document is what `init` persists — on it, `getFilteredIssues`
would throw on `filters.search.toLowerCase()`. -/
theorem claim5_counterexample :
    (stateInit "2024-05-05" (initialStateObj "2024-05-05")
        (StoredBlob.parsed { filters := some { priority := some "high" } })).data.filters.search
      = none ∧
    (stateInit "2024-05-05" (initialStateObj "2024-05-05")
        (StoredBlob.parsed { filters := some { priority := some "high" } })).persisted
      = true ∧
    (initialStateObj "2024-05-05").filters.search = some "" := by
  decide

/-- C5 (amended): `state.init` always ends persisted and computes exactly
the shallow merge: the canonical initial document on absence (given the
startup value of `state.data`) or on a parse failure, and, on success, each
present top-level field taken wholesale from the blob — even an internally
partial `filters` object, which is carried in and persisted as is, a
partial-corrupt state — with only absent top-level fields defaulting from
the canonical initial document. -/
theorem claim5_stateInit (today : String) (pre : DocumentObj) (blob : StoredBlob)
    (hpre : pre = initialStateObj today) :
    (stateInit today pre blob).data = specInitShallowMerge today blob ∧
    (stateInit today pre blob).persisted = true := by
  cases blob with
  | absent => exact ⟨by subst hpre; rfl, rfl⟩
  | corrupt => exact ⟨rfl, rfl⟩
  | parsed p => exact ⟨rfl, rfl⟩

/-- C5 witness: the partial-filters blob merges exactly per the shallow
merge (which carries the partial sub-object in wholesale). -/
theorem claim5_stateInit_witness :
    initialStateObj "2024-05-05" = initialStateObj "2024-05-05" ∧
    (stateInit "2024-05-05" (initialStateObj "2024-05-05")
        (StoredBlob.parsed { filters := some { priority := some "high" } })).data
      = specInitShallowMerge "2024-05-05"
          (StoredBlob.parsed { filters := some { priority := some "high" } }) :=
  ⟨rfl,
    (claim5_stateInit "2024-05-05" (initialStateObj "2024-05-05")
      (StoredBlob.parsed { filters := some { priority := some "high" } }) rfl).1⟩

/-- C6: `importIssues` appends the batch to the end of `issues` in exactly
the order received (each record, with its pre-assigned id and `sourceUrl`,
preserved verbatim by the list append), leaves every other document field
unchanged, and notifies. -/
theorem claim6_importIssues_appends (doc : Document) (batch : List Issue) :
    (importIssues batch doc).data.issues = doc.issues ++ batch ∧
    (importIssues batch doc).data.todos = doc.todos ∧
    (importIssues batch doc).data.theme = doc.theme ∧
    (importIssues batch doc).data.currentDate = doc.currentDate ∧
    (importIssues batch doc).data.filters = doc.filters ∧
    (importIssues batch doc).notified = true :=
  ⟨rfl, rfl, rfl, rfl, rfl, rfl⟩

/-- C7 counterexample: importing a batch whose two records share an id
produces a document whose issue ids are not pairwise distinct — the code
performs no duplicate check, so uniqueness does not hold for every sequence
of calls. -/
theorem claim7_counterexample :
    ¬ (((runOps (fun _ => "g-0") "2024-05-05"
          [Op.importBatch [issueBugA, issueBugA]]
          (initialState "2024-05-05", 0)).1.issues.map Issue.id).Nodup) := by
  decide

/-- C7 (amended): uniqueness holds exactly when the supplied ids are
collision-free: if the ids the calls introduce (the oracle-generated or
caller-supplied id of each `addIssue`, and the batch ids of each
`importIssues`) together with the pre-existing issue ids are pairwise
distinct, then after running the calls all issue ids are pairwise
distinct. -/
theorem claim7_ids_nodup (gen : Nat → String) (today : String) (ops : List Op)
    (doc : Document) (n : Nat)
    (h : (doc.issues.map Issue.id ++ opIdsFrom gen n ops).Nodup) :
    ((runOps gen today ops (doc, n)).1.issues.map Issue.id).Nodup := by
  rw [runOps_ids]
  exact h

/-- C7 witness: one `addIssue` followed by a one-record import, with all ids
distinct. -/
theorem claim7_ids_nodup_witness :
    (((initialState "2024-05-05").issues.map Issue.id
        ++ opIdsFrom (fun _ => "fresh-0") 0 [Op.add {}, Op.importBatch [issueBugA]]).Nodup) ∧
    (((runOps (fun _ => "fresh-0") "2024-05-05" [Op.add {}, Op.importBatch [issueBugA]]
        (initialState "2024-05-05", 0)).1.issues.map Issue.id).Nodup) :=
  ⟨by decide,
    claim7_ids_nodup (fun _ => "fresh-0") "2024-05-05"
      [Op.add {}, Op.importBatch [issueBugA]] (initialState "2024-05-05") 0 (by decide)⟩

/-- C8: `addTodo(text, d1)` creates the bucket for `d1` when absent and
appends a todo with the given text and `completed = false` (the bucket for
`d1` afterwards holds its previous content — empty when absent — plus the
new todo), leaves the bucket read for any other date `d2` unchanged, and
notifies. -/
theorem claim8_addTodo_isolated (fid text d1 d2 : String) (doc : Document)
    (h : d2 ≠ d1) :
    lookupBucket (addTodo fid text d1 doc).data.todos d1
      = some (getTodosForDate doc d1 ++ [⟨fid, text, false⟩]) ∧
    getTodosForDate (addTodo fid text d1 doc).data d2 = getTodosForDate doc d2 ∧
    (addTodo fid text d1 doc).notified = true := by
  refine ⟨?_, ?_, rfl⟩
  · show lookupBucket (setBucket doc.todos d1 ((lookupBucket doc.todos d1).getD [] ++ [⟨fid, text, false⟩])) d1
        = some (getTodosForDate doc d1 ++ [⟨fid, text, false⟩])
    rw [lookupBucket_setBucket_self]
    rfl
  · show getTodosForDate
        { doc with todos := setBucket doc.todos d1 ((lookupBucket doc.todos d1).getD [] ++ [⟨fid, text, false⟩]) } d2
        = getTodosForDate doc d2
    unfold getTodosForDate
    rw [lookupBucket_setBucket_ne doc.todos d1 d2 _ h]

/-- C8 witness: adding a todo under 2024-01-01 leaves the 2024-01-02 read
unchanged. -/
theorem claim8_addTodo_isolated_witness :
    ("2024-01-02" : String) ≠ "2024-01-01" ∧
    getTodosForDate (addTodo "t-9" "Write docs" "2024-01-01" sampleDoc).data "2024-01-02"
      = getTodosForDate sampleDoc "2024-01-02" :=
  ⟨by decide,
    (claim8_addTodo_isolated "t-9" "Write docs" "2024-01-01" "2024-01-02" sampleDoc
      (by decide)).2.1⟩

/-- C9: `getTodosForDate` computes exactly the spec-side read: the bucket's
sequence when the date has a bucket, the empty sequence otherwise. It is
embedded as a pure function of the document (a JS property read mutates
nothing), so it leaves the document unchanged and can create no bucket by
construction. -/
theorem claim9_getTodos_pure (doc : Document) (date : String) :
    getTodosForDate doc date = specGetTodos doc date := by
  unfold getTodosForDate specGetTodos
  cases lookupBucket doc.todos date <;> rfl

/-- C10: when a todo with the given id exists in the date's bucket, toggling
it twice restores the document exactly — the todo's `completed` returns to
its original value and its id and text, the rest of the bucket, and every
other bucket are unchanged — and both calls notify. -/
theorem claim10_toggle_involution (doc : Document) (id date : String)
    (bucket : List Todo) (hb : lookupBucket doc.todos date = some bucket)
    (ht : ∃ t ∈ bucket, t.id = id) :
    (toggleTodo id date (toggleTodo id date doc).data).data = doc ∧
    (toggleTodo id date doc).notified = true ∧
    (toggleTodo id date (toggleTodo id date doc).data).notified = true := by
  obtain ⟨l1, h1⟩ := toggleFirst_of_mem id bucket ht
  have hdata1 : (toggleTodo id date doc).data
      = { doc with todos := setBucket doc.todos date l1 } := by
    unfold toggleTodo
    simp only [hb, h1]
  have hlook : lookupBucket (setBucket doc.todos date l1) date = some l1 :=
    lookupBucket_setBucket_self doc.todos date l1
  have h2 : toggleFirst id l1 = some bucket := toggleFirst_toggleFirst id bucket l1 h1
  have hdata2 : (toggleTodo id date { doc with todos := setBucket doc.todos date l1 }).data
      = { doc with todos := setBucket (setBucket doc.todos date l1) date bucket } := by
    unfold toggleTodo
    simp only [hlook, h2]
  refine ⟨?_, ?_, ?_⟩
  · rw [hdata1, hdata2, setBucket_setBucket,
      setBucket_lookupBucket_eq doc.todos date bucket hb]
  · unfold toggleTodo
    simp only [hb, h1]
  · rw [hdata1]
    unfold toggleTodo
    simp only [hlook, h2]

/-- C10 witness: toggling the sample todo twice restores the sample
document. -/
theorem claim10_toggle_involution_witness :
    lookupBucket sampleDoc.todos "2024-03-01" = some [todoW] ∧
    (∃ t ∈ [todoW], t.id = "t-1") ∧
    (toggleTodo "t-1" "2024-03-01" (toggleTodo "t-1" "2024-03-01" sampleDoc).data).data
      = sampleDoc :=
  ⟨by decide, by decide,
    (claim10_toggle_involution sampleDoc "t-1" "2024-03-01" [todoW]
      (by decide) (by decide)).1⟩

end DevFlow
